import Mathlib

/-!
Shallow embedding of the bidquotes-server bid/job lifecycle engine,
credit ledger, payment gate and webhook reconciliation, translated from
`app/services/contractor_bids_services.py`, `app/services/buyer_jobs_services.py`,
`app/services/payment_mgnt_services.py`, `app/routes/stripe_webhook_route.py`,
`app/models/job_models.py`, `app/models/bid_models.py` and `app/custom_error.py`.

Database tables are lists of rows; supabase `.eq`/`.neq` filters become list
filters, `.update(...).eq(...)` becomes a `List.map` that rewrites the matching
rows, `.insert` appends (credit transactions prepend, because every read of
that table orders by `created_at` descending and the insertion order models
time).  Row ids that the database would generate are passed as parameters.
-/

namespace Bidquotes

/-- Exceptions of `app/custom_error.py` plus the Python built-in exceptions the
services can hit (`ValueError` from `float()`, `AttributeError` from a missing
enum member).  `insufficientCreditsError` is modelled from the spec §7, which
names an `InsufficientCreditsError` specialization; `custom_error.py` defines
no such class. -/
inductive PyError where
  | userNotFoundError : PyError
  | validationError (detail : String) : PyError
  | databaseError (detail : String) : PyError
  | serverError (detail : String) : PyError
  | valueError (msg : String) : PyError
  | keyError (msg : String) : PyError
  | attributeError (msg : String) : PyError
  | insufficientCreditsError (detail : String) : PyError
  deriving DecidableEq

/-- Python `str(e)`: FastAPI's `HTTPException.__str__` renders
`"{status_code}: {detail}"`; plain exceptions render their message. -/
def PyError.str : PyError → String
  | .userNotFoundError => "404: User not found"
  | .validationError d => "400: " ++ d
  | .databaseError d => "500: " ++ d
  | .serverError d => "500: " ++ d
  | .valueError m => m
  | .keyError m => m
  | .attributeError m => m
  | .insufficientCreditsError d => "402: " ++ d

/-- Whether an error is the spec's `InsufficientCreditsError` (any message). -/
def PyError.isInsufficientCredits : PyError → Bool
  | .insufficientCreditsError _ => true
  | _ => false

/-- The `JobStatus(str, Enum)` members of `app/models/job_models.py`
(member name, `.value`).  Note: the enum has no `CLOSED` member. -/
def jobStatusMembers : List (String × String) :=
  [("DRAFT", "draft"), ("OPEN", "open"), ("FULL_BID", "full_bid"),
   ("WAITING_CONFIRMATION", "waiting_confirmation"), ("CONFIRMED", "confirmed")]

/-- Python attribute lookup `JobStatus.<name>.value`: `none` models the
`AttributeError` raised when the member does not exist. -/
def jobStatusValue (name : String) : Option String :=
  (jobStatusMembers.find? (fun m => m.fst == name)).map (·.snd)

/-- `BidStatus.DRAFT.value` (`app/models/bid_models.py`). -/
def bidStatusDraft : String := "draft"

/-- `BidStatus.PENDING.value` (`app/models/bid_models.py`). -/
def bidStatusPending : String := "pending"

/-! ### Python string helpers and decimal parsing

The source manipulates prices with `str.replace`, `str.strip` and `float()`.
We model these on character lists.  `float()` (restricted to plain decimal
notation, the fragment the price strings use) is modelled exactly, as an
integer mantissa with a power-of-ten scale, so that the numeric comparisons
of the source become division-free integer comparisons. -/

/-- Model of Python `s.replace(c, "")` for a one-character pattern: drop
every occurrence of the character. -/
def pyReplaceEmpty (s : String) (c : Char) : String :=
  String.mk (s.data.filter (fun x => x != c))

/-- Python `str.strip` whitespace. -/
def isPySpace (c : Char) : Bool :=
  c == ' ' || c == '\t' || c == '\n' || c == '\r' || c == '\x0b' || c == '\x0c'

/-- Model of Python `s.strip()`: drop leading and trailing whitespace. -/
def pyStrip (s : String) : String :=
  String.mk (((s.data.dropWhile isPySpace).reverse.dropWhile isPySpace).reverse)

/-- Split a character list on a separator character (like `str.split(sep)`). -/
def splitOnChar (sep : Char) : List Char → List (List Char)
  | [] => [[]]
  | c :: rest =>
    if c == sep then [] :: splitOnChar sep rest
    else
      match splitOnChar sep rest with
      | [] => [[c]]
      | h :: t => (c :: h) :: t

/-- All characters are ASCII digits and there is at least one. -/
def isDigitRun (cs : List Char) : Bool :=
  !cs.isEmpty && cs.all (·.isDigit)

/-- Numeric value of a run of ASCII digits. -/
def digitRunVal (cs : List Char) : Nat :=
  cs.foldl (fun a c => a * 10 + (c.toNat - 48)) 0

/-- An exact decimal number `num / 10 ^ scale`, the value a Python float
literal denotes. -/
structure PyDecimal where
  num : Int
  scale : Nat
  deriving DecidableEq

/-- The rational value of a parsed decimal. -/
def PyDecimal.toRat (d : PyDecimal) : ℚ :=
  (d.num : ℚ) / (10 : ℚ) ^ d.scale

/-- Exact strict comparison of two decimals (cross-multiplied). -/
def PyDecimal.blt (a b : PyDecimal) : Bool :=
  decide (a.num * (10 : Int) ^ b.scale < b.num * (10 : Int) ^ a.scale)

/-- Exact `>` on decimals, as the source's `min_price > max_price`. -/
def PyDecimal.bgt (a b : PyDecimal) : Bool := PyDecimal.blt b a

/-- The decimal zero (`0.0`). -/
def PyDecimal.zero : PyDecimal := ⟨0, 0⟩

/-- Model of Python `float(s)` restricted to plain decimal notation
`[+-]? digits [. digits]?` (either digit run may be empty but not both);
`none` models `ValueError`. -/
def pyFloat (s : String) : Option PyDecimal :=
  let (sign, body) :=
    match s.data with
    | '-' :: t => ((-1 : Int), t)
    | '+' :: t => ((1 : Int), t)
    | cs => ((1 : Int), cs)
  match splitOnChar '.' body with
  | [intPart] =>
      if isDigitRun intPart then some ⟨sign * digitRunVal intPart, 0⟩ else none
  | [intPart, fracPart] =>
      if (isDigitRun intPart && fracPart.all (·.isDigit)) ||
         (intPart.all (·.isDigit) && isDigitRun fracPart) then
        some ⟨sign * ((digitRunVal intPart : Int) * (10 : Int) ^ fracPart.length +
          (digitRunVal fracPart : Int)), fracPart.length⟩
      else none
  | _ => none

/-- Model of Python `int(s)` on an optionally signed digit string. -/
def pyInt (s : String) : Option Int :=
  match s.data with
  | '-' :: t => if isDigitRun t then some (-(digitRunVal t : Int)) else none
  | '+' :: t => if isDigitRun t then some (digitRunVal t : Int) else none
  | cs => if isDigitRun cs then some (digitRunVal cs : Int) else none

/-! ### Price validation (`BidService._clean_price_string` /
`BidService._validate_bid_data`, `app/services/contractor_bids_services.py`) -/

/-- Embeds `BidService._clean_price_string`: an empty (falsy) string short-circuits to
`0.0`; otherwise currency symbols, commas and surrounding whitespace are
stripped and the remainder parsed; a parse failure (`ValueError`) is re-raised
as `ValidationError(f"Invalid price format: {price_str}")`. -/
def clean_price_string (price_str : String) : Except PyError PyDecimal :=
  if price_str == "" then .ok PyDecimal.zero
  else
    let cleaned := pyStrip (pyReplaceEmpty (pyReplaceEmpty price_str '$') ',')
    match pyFloat cleaned with
    | some v => .ok v
    | none => .error (.validationError ("Invalid price format: " ++ price_str))

/-- Embeds `BidService._validate_bid_data` (contractor_bids_services variant):
clean both prices, reject negatives, then reject `min_price > max_price`.
(The enclosing `except ValueError` in the source never fires: the cleaner
raises `ValidationError`, not `ValueError`.) -/
def validate_bid_data (price_min price_max : String) : Except PyError Unit :=
  match clean_price_string price_min with
  | .error e => .error e
  | .ok min_price =>
    match clean_price_string price_max with
    | .error e => .error e
    | .ok max_price =>
      if min_price.blt PyDecimal.zero || max_price.blt PyDecimal.zero then
        .error (.validationError "Prices must be positive")
      else if min_price.bgt max_price then
        .error (.validationError "Minimum price cannot be greater than maximum price")
      else .ok ()

/-! ### Credit ledger (`app/services/payment_mgnt_services.py`)

`credit_transactions` rows, newest first: every read in the source orders by
`created_at` descending, so prepending each insert models insertion time. -/

/-- One `credit_transactions` row. -/
structure CreditTransaction where
  contractor_id : String
  transaction_type : String
  credits_change : Int
  credits_balance_after : Int
  bid_id : Option String := none
  payment_transaction_id : Option String := none
  description : String
  deriving DecidableEq

/-- Embeds `PaymentService.get_contractor_credits`: `credits_balance_after` of the
most recent transaction of the contractor, `0` with no history. -/
def get_contractor_credits (ledger : List CreditTransaction)
    (contractor_id : String) : Int :=
  match ledger.filter (fun t => t.contractor_id == contractor_id) with
  | [] => 0
  | t :: _ => t.credits_balance_after

/-- Embeds `PaymentService.use_credit_for_bid`: read the balance; on
`current_credits <= 0` raise `ValidationError("Insufficient credits")` — which
the function's own `except Exception` clause catches and re-raises as
`DatabaseError(f"Failed to process credit usage: {str(e)}")` — otherwise
insert a `usage` row at balance `current_credits - 1`. -/
def use_credit_for_bid (ledger : List CreditTransaction)
    (contractor_id job_id bid_id : String) :
    Except PyError Unit × List CreditTransaction :=
  let current_credits := get_contractor_credits ledger contractor_id
  if current_credits ≤ 0 then
    (.error (.databaseError ("Failed to process credit usage: " ++
      (PyError.validationError "Insufficient credits").str)), ledger)
  else
    let new_balance := current_credits - 1
    (.ok (),
      { contractor_id := contractor_id
        transaction_type := "usage"
        credits_change := -1
        credits_balance_after := new_balance
        bid_id := some bid_id
        description := "Bid submission for job id: " ++ job_id } :: ledger)

/-! ### Stripe webhook reconciliation (`app/routes/stripe_webhook_route.py`) -/

/-- One `payment_transactions` row (`id` is the database-generated key). -/
structure PaymentTransaction where
  id : String
  contractor_id : String
  stripe_session_id : String
  stripe_payment_intent_id : Option String := none
  item_type : String
  amount_cad : PyDecimal
  currency : String
  status : String
  credits_purchased : Int
  job_id : Option String := none
  bid_id : Option String := none
  deriving DecidableEq

/-- The two tables touched by the payment webhook handler. -/
structure PaymentsDB where
  payment_transactions : List PaymentTransaction
  credit_transactions : List CreditTransaction
  deriving DecidableEq

/-- Embeds `_process_credit_purchase`: read the current balance and insert a
`purchase` credit transaction at `current + credits_purchased`. -/
def process_credit_purchase (db : PaymentsDB)
    (contractor_id payment_transaction_id : String) (credits_purchased : Int) :
    PaymentsDB :=
  let current_credits := get_contractor_credits db.credit_transactions contractor_id
  let new_balance := current_credits + credits_purchased
  { db with credit_transactions :=
      { contractor_id := contractor_id
        transaction_type := "purchase"
        credits_change := credits_purchased
        credits_balance_after := new_balance
        payment_transaction_id := some payment_transaction_id
        description := "Credit purchase - " ++ toString credits_purchased ++
          " credits added" } :: db.credit_transactions }

/-- Embeds `_handle_payment_success` on a `checkout.session.completed` event: check
the required metadata fields, insert a `succeeded` payment transaction row
(unconditionally — no lookup of an existing row for the session id), and for
`credit_purchase` items add the credits.  `new_payment_id` is the id the
database assigns to the inserted row. -/
def handle_payment_success (db : PaymentsDB)
    (metadata : List (String × String)) (session_id : String)
    (payment_intent : Option String) (new_payment_id : String) :
    Except PyError String × PaymentsDB :=
  if (metadata.lookup "item_type").isNone then
    (.error (.valueError "Missing required metadata field: item_type"), db)
  else if (metadata.lookup "contractor_id").isNone then
    (.error (.valueError "Missing required metadata field: contractor_id"), db)
  else if (metadata.lookup "amount_cad").isNone then
    (.error (.valueError "Missing required metadata field: amount_cad"), db)
  else
    let item_type := ((metadata.lookup "item_type").getD "")
    let contractor_id := ((metadata.lookup "contractor_id").getD "")
    let amount_str := ((metadata.lookup "amount_cad").getD "")
    match pyFloat amount_str with
    | none =>
        (.error (.valueError ("could not convert string to float: " ++ amount_str)), db)
    | some amount_cad =>
      let credits_str := (metadata.lookup "credits_purchased").getD "0"
      match pyInt credits_str with
      | none =>
          (.error (.valueError ("invalid literal for int() with base 10: " ++ credits_str)), db)
      | some credits_in_row =>
        let payment_data : PaymentTransaction :=
          { id := new_payment_id
            contractor_id := contractor_id
            stripe_session_id := session_id
            stripe_payment_intent_id := payment_intent
            item_type := item_type
            amount_cad := amount_cad
            currency := "CAD"
            status := "succeeded"
            credits_purchased := credits_in_row
            job_id := if item_type == "bid_payment" then metadata.lookup "job_id" else none
            bid_id := if item_type == "bid_payment" then metadata.lookup "bid_id" else none }
        let db1 : PaymentsDB :=
          { db with payment_transactions := db.payment_transactions ++ [payment_data] }
        if item_type == "credit_purchase" then
          match metadata.lookup "credits_purchased" with
          | none => (.error (.keyError "credits_purchased"), db1)
          | some s =>
            match pyInt s with
            | none =>
                (.error (.valueError ("invalid literal for int() with base 10: " ++ s)), db1)
            | some credits_purchased =>
              (.ok ("Payment " ++ session_id ++ " recorded successfully"),
                process_credit_purchase db1 contractor_id new_payment_id credits_purchased)
        else
          (.ok ("Payment " ++ session_id ++ " recorded successfully"), db1)

/-! ### Jobs / bids database

Rows keep the columns the modelled operations read or write; purely
descriptive columns (titles, budgets, timestamps, …) that no guard or update
in the modelled services depends on are omitted. -/

/-- A `users` row: the clerk-id to internal-id mapping read by `_get_user_id`. -/
structure UserRow where
  clerk_user_id : String
  id : String
  deriving DecidableEq

/-- A `jobs` row. -/
structure Job where
  id : String
  buyer_id : String
  status : String
  selection_count : Int
  max_selections : Int
  deriving DecidableEq

/-- A `bids` row. -/
structure Bid where
  id : String
  job_id : String
  contractor_id : String
  title : String := ""
  price_min : String := ""
  price_max : String := ""
  timeline_estimate : String := ""
  work_description : String := ""
  additional_notes : Option String := none
  status : String
  is_selected : Bool
  deriving DecidableEq

/-- A `buyer_profiles` row (the columns `get_bid_detail` selects). -/
structure BuyerProfile where
  user_id : String
  contact_email : String
  phone_number : String
  deriving DecidableEq

/-- The tables touched by the job/bid lifecycle services. -/
structure DB where
  users : List UserRow
  jobs : List Job
  bids : List Bid
  buyer_profiles : List BuyerProfile
  deriving DecidableEq

/-- Embeds `_get_user_id` (identical helper in buyer_jobs_services and
contractor_bids_services): first `users` row with the clerk id. -/
def get_user_id (db : DB) (clerk_user_id : String) : Except PyError String :=
  match db.users.filter (fun u => u.clerk_user_id == clerk_user_id) with
  | [] => .error .userNotFoundError
  | u :: _ => .ok u.id

/-- The request body `BidCreate` of `app/models/bid_models.py`. -/
structure BidCreate where
  job_id : String
  title : String
  price_min : String
  price_max : String
  timeline_estimate : String
  work_description : String
  additional_notes : Option String := none
  deriving DecidableEq

/-! ### Row transformers

One named function per supabase `update(...).eq(...)` call of the modelled
services: applying it over the whole table is the row-level update. -/

/-- Update `{"is_selected": False}` where `job_id == job_id` and
`is_selected == True` (select_bid step 1). -/
def applyUnselect (job_id : String) (b : Bid) : Bid :=
  if b.job_id == job_id && b.is_selected then { b with is_selected := false } else b

/-- Update `{"is_selected": True, "status": "selected"}` where `id == bid_id`
(select_bid step 2). -/
def applySelect (bid_id : String) (b : Bid) : Bid :=
  if b.id == bid_id then { b with is_selected := true, status := "selected" } else b

/-- Update `{"is_selected": False, "status": "pending"}` where `id == bid_id`
(cancel_bid_selection step 1). -/
def applyResetPending (bid_id : String) (b : Bid) : Bid :=
  if b.id == bid_id then { b with is_selected := false, status := "pending" } else b

/-- Update `{"status": "confirmed"}` where `id == bid_id`
(confirm_selected_bid step 1; `is_selected` deliberately untouched). -/
def applyConfirm (bid_id : String) (b : Bid) : Bid :=
  if b.id == bid_id then { b with status := "confirmed" } else b

/-- Update `{"status": "declined", "is_selected": False}` where
`job_id == job_id` and `id != bid_id` (confirm_selected_bid step 3). -/
def applyDeclineOthers (job_id bid_id : String) (b : Bid) : Bid :=
  if b.job_id == job_id && b.id != bid_id then
    { b with status := "declined", is_selected := false } else b

/-- Update `{"status": s}` on the `jobs` table where `id == job_id`. -/
def applyJobStatus (job_id s : String) (j : Job) : Job :=
  if j.id == job_id then { j with status := s } else j

/-- Update `{"status": "waiting_confirmation", "selection_count": cnt}` where
`id == job_id` (select_bid step 3). -/
def applyJobSelect (job_id : String) (cnt : Int) (j : Job) : Job :=
  if j.id == job_id then
    { j with status := "waiting_confirmation", selection_count := cnt } else j

/-! ### `JobService` buyer operations (`app/services/buyer_jobs_services.py`)

Mutating operations return the result together with the (possibly partially
written) database, since the source applies its writes one by one with no
transaction. -/

/-- Embeds `JobService.select_bid`: guards (ownership, job status in
open/full_bid, `selection_count > max_selections` cap check, target bid
non-draft/non-declined and not already selected), then unselect the job's
selected bids, select the target, and set the job to `waiting_confirmation`
with `selection_count` incremented from the value read before the writes. -/
def select_bid (db : DB) (clerk_user_id job_id bid_id : String) :
    Except PyError Unit × DB :=
  match get_user_id db clerk_user_id with
  | .error e => (.error e, db)
  | .ok user_id =>
    match db.jobs.filter (fun j => j.id == job_id && j.buyer_id == user_id) with
    | [] => (.error (.validationError "Job not found or permission denied"), db)
    | job_data :: _ =>
      if !(job_data.status == "open" || job_data.status == "full_bid") then
        (.error (.validationError "Cannot select bid for job in current status"), db)
      else if job_data.selection_count > job_data.max_selections then
        (.error (.validationError "Maximum number of bid selections reached for this job"), db)
      else
        match db.bids.filter (fun b => b.id == bid_id && b.job_id == job_id &&
            b.status != "draft" && b.status != "declined") with
        | [] => (.error (.validationError "Bid not found for this job"), db)
        | bid_data :: _ =>
          if bid_data.is_selected then
            (.error (.validationError "This bid is already selected"), db)
          else
            let bids1 := db.bids.map (applyUnselect job_id)
            let bids2 := bids1.map (applySelect bid_id)
            let new_selection_count := job_data.selection_count + 1
            let jobs1 := db.jobs.map (applyJobSelect job_id new_selection_count)
            (.ok (), { db with bids := bids2, jobs := jobs1 })

/-- Embeds `JobService.cancel_bid_selection`: only for a job in
`waiting_confirmation` with a selected bid; resets that bid to
`pending`/unselected, then recomputes the job status from the count of
non-draft, non-declined bids (`full_bid` when `>= 5`, else `open`), leaving
`selection_count` untouched. -/
def cancel_bid_selection (db : DB) (clerk_user_id job_id : String) :
    Except PyError Unit × DB :=
  match get_user_id db clerk_user_id with
  | .error e => (.error e, db)
  | .ok user_id =>
    match db.jobs.filter (fun j => j.id == job_id && j.buyer_id == user_id) with
    | [] => (.error (.validationError "Job not found or permission denied"), db)
    | job_data :: _ =>
      if job_data.status != "waiting_confirmation" then
        (.error (.validationError "No bid selection to cancel for this job"), db)
      else
        match db.bids.filter (fun b => b.job_id == job_id && b.is_selected) with
        | [] => (.error (.validationError "No selected bid found for this job"), db)
        | selected_bid :: _ =>
          let bids1 := db.bids.map (applyResetPending selected_bid.id)
          let current_bid_count := (bids1.filter (fun b =>
            b.job_id == job_id && b.status != "draft" && b.status != "declined")).length
          let new_job_status := if current_bid_count ≥ 5 then "full_bid" else "open"
          let jobs1 := db.jobs.map (applyJobStatus job_id new_job_status)
          (.ok (), { db with bids := bids1, jobs := jobs1 })

/-! ### `BidService` contractor operations
(`app/services/contractor_bids_services.py`) -/

/-- Embeds `BidService._validate_job_available_for_bidding`: job exists, is `open`,
is not the contractor's own, and has fewer than 5 non-draft, non-declined
bids. -/
def validate_job_available_for_bidding (db : DB) (job_id contractor_id : String) :
    Except PyError Unit :=
  match db.jobs.filter (fun j => j.id == job_id) with
  | [] => .error (.validationError "Job not found")
  | job :: _ =>
    if job.status != "open" then
      .error (.validationError "This job is no longer accepting bids")
    else if job.buyer_id == contractor_id then
      .error (.validationError "Cannot bid on your own job")
    else
      let bid_count := (db.bids.filter (fun b =>
        b.job_id == job_id && b.status != "draft" && b.status != "declined")).length
      if bid_count ≥ 5 then
        .error (.validationError "This job already has the maximum number of bids")
      else .ok ()

/-- Embeds `BidService._validate_no_existing_bid`: the contractor has no bid or
draft on the job (optionally excluding one bid id). -/
def validate_no_existing_bid (db : DB) (job_id contractor_id : String)
    (exclude_bid_id : Option String := none) : Except PyError Unit :=
  let matching := db.bids.filter (fun b =>
    b.job_id == job_id && b.contractor_id == contractor_id &&
    (match exclude_bid_id with | none => true | some e => b.id != e))
  if matching.isEmpty then .ok ()
  else .error (.validationError "You have already submitted a bid or saved a draft for this job")

/-- Embeds `BidService.create_bid`: validation chain, insert the bid as `pending`
(`is_selected` takes the column default `false`), then — when the job's
`pending`-bid count reaches exactly 5 — update the job status to
`JobStatus.CLOSED.value`.  `JobStatus` has no `CLOSED` member, so that
attribute access raises `AttributeError`, which the surrounding
`except Exception` clause converts to `ServerError("Failed to create your
bid")` after the insert has already been persisted.  `new_bid_id` is the id
the database assigns to the inserted row. -/
def create_bid (db : DB) (clerk_user_id : String) (bid_data : BidCreate)
    (new_bid_id : String) : Except PyError Unit × DB :=
  match get_user_id db clerk_user_id with
  | .error e => (.error e, db)
  | .ok contractor_id =>
    match validate_job_available_for_bidding db bid_data.job_id contractor_id with
    | .error e => (.error e, db)
    | .ok _ =>
      match validate_no_existing_bid db bid_data.job_id contractor_id with
      | .error e => (.error e, db)
      | .ok _ =>
        match validate_bid_data bid_data.price_min bid_data.price_max with
        | .error e => (.error e, db)
        | .ok _ =>
          let new_bid : Bid :=
            { id := new_bid_id
              job_id := bid_data.job_id
              contractor_id := contractor_id
              title := bid_data.title
              price_min := bid_data.price_min
              price_max := bid_data.price_max
              timeline_estimate := bid_data.timeline_estimate
              work_description := bid_data.work_description
              additional_notes := bid_data.additional_notes
              status := bidStatusPending
              is_selected := false }
          let bids1 := db.bids ++ [new_bid]
          let job_bids := bids1.filter (fun b =>
            b.job_id == bid_data.job_id && b.status == bidStatusPending)
          if job_bids.length == 5 then
            match jobStatusValue "CLOSED" with
            | none => (.error (.serverError "Failed to create your bid"), { db with bids := bids1 })
            | some v =>
              let jobs1 := db.jobs.map (applyJobStatus bid_data.job_id v)
              (.ok (), { db with bids := bids1, jobs := jobs1 })
          else (.ok (), { db with bids := bids1 })

/-- Embeds `BidService.confirm_selected_bid`: only for an owned bid with
`status == "selected"` and `is_selected`; sets it to `confirmed` (leaving
`is_selected` untouched), the job to `confirmed`, and every other bid of the
job to `declined`/unselected. -/
def confirm_selected_bid (db : DB) (clerk_user_id bid_id : String) :
    Except PyError Unit × DB :=
  match get_user_id db clerk_user_id with
  | .error e => (.error e, db)
  | .ok user_id =>
    match db.bids.filter (fun b => b.id == bid_id && b.contractor_id == user_id) with
    | [] => (.error (.validationError "Bid not found or permission denied"), db)
    | bid_data :: _ =>
      if bid_data.status != "selected" || !bid_data.is_selected then
        (.error (.validationError "This bid is not currently selected"), db)
      else
        let job_id := bid_data.job_id
        let bids1 := db.bids.map (applyConfirm bid_id)
        let jobs1 := db.jobs.map (applyJobStatus job_id "confirmed")
        let bids2 := bids1.map (applyDeclineOthers job_id bid_id)
        (.ok (), { db with bids := bids2, jobs := jobs1 })

/-- The fields of `BidDetailResponse` the disclosure claims observe. -/
structure BidDetailResult where
  id : String
  job_id : String
  contractor_id : String
  status : String
  is_selected : Bool
  buyer_contact_email : Option String := none
  buyer_contact_phone : Option String := none
  deriving DecidableEq

/-- Embeds `BidService.get_bid_detail`: the contractor's bid joined (inner) with its
job; buyer contact columns are looked up and filled only when the bid status
is `confirmed`, and stay `None` otherwise. -/
def get_bid_detail (db : DB) (clerk_user_id bid_id : String) :
    Except PyError BidDetailResult :=
  match get_user_id db clerk_user_id with
  | .error e => .error e
  | .ok user_id =>
    let rows := (db.bids.filter (fun b => b.id == bid_id && b.contractor_id == user_id)).filterMap
      (fun b => (db.jobs.find? (fun j => j.id == b.job_id)).map (fun j => (b, j)))
    match rows with
    | [] => .error (.validationError "Bid not found or permission denied")
    | (bid_data, job_data) :: _ =>
      let contact : Option String × Option String :=
        if bid_data.status == "confirmed" then
          match db.buyer_profiles.filter (fun p => p.user_id == job_data.buyer_id) with
          | [] => (none, none)
          | c :: _ => (some c.contact_email, some c.phone_number)
        else (none, none)
      .ok { id := bid_data.id
            job_id := bid_data.job_id
            contractor_id := bid_data.contractor_id
            status := bid_data.status
            is_selected := bid_data.is_selected
            buyer_contact_email := contact.1
            buyer_contact_phone := contact.2 }

/-! ## Invariants and well-formedness -/

/-- Primary-key uniqueness of `bids.id`. -/
def UniqueBidIds (bids : List Bid) : Prop := (bids.map Bid.id).Nodup

/-- Primary-key uniqueness of `jobs.id`. -/
def UniqueJobIds (jobs : List Job) : Prop := (jobs.map Job.id).Nodup

/-- At most one bid (identified by its id) of any one job carries
`is_selected = true`. -/
def AtMostOneSelectedPerJob (bids : List Bid) : Prop :=
  ∀ b1 ∈ bids, ∀ b2 ∈ bids, b1.is_selected = true → b2.is_selected = true →
    b1.job_id = b2.job_id → b1.id = b2.id

/-! ## Concrete scenario states -/

/-- Users of the concrete scenarios: one buyer and six contractors. -/
def demoUsers : List UserRow :=
  [⟨"ckb", "u1"⟩, ⟨"ck1", "c1"⟩, ⟨"ck2", "c2"⟩, ⟨"ck3", "c3"⟩,
   ⟨"ck4", "c4"⟩, ⟨"ck5", "c5"⟩, ⟨"ck6", "c6"⟩]

/-- An open job of buyer `u1` with no selections yet; `max_selections = 3`,
the cap of the source's docstring ("max 3 selections allowed per job"). -/
def demoJob : Job :=
  { id := "j1", buyer_id := "u1", status := "open"
    selection_count := 0, max_selections := 3 }

/-- A pending, unselected bid of contractor `c1` on `j1`. -/
def demoBid1 : Bid :=
  { id := "b1", job_id := "j1", contractor_id := "c1"
    status := "pending", is_selected := false }

/-- A pending, unselected bid of contractor `c2` on `j1`. -/
def demoBid2 : Bid :=
  { id := "b2", job_id := "j1", contractor_id := "c2"
    status := "pending", is_selected := false }

/-! ### C1 scenario: repeated select / cancel rounds on one job -/

/-- Start state of the selection-cap scenario. -/
def selectLoopDB : DB :=
  { users := demoUsers, jobs := [demoJob], bids := [demoBid1], buyer_profiles := [] }

/-- Round 1: select `b1` (selection_count 0 → 1). -/
def selectLoop1 := select_bid selectLoopDB "ckb" "j1" "b1"

/-- Round 1: cancel the selection (selection_count stays 1). -/
def selectLoop2 := cancel_bid_selection selectLoop1.2 "ckb" "j1"

/-- Round 2: select `b1` again (selection_count 1 → 2). -/
def selectLoop3 := select_bid selectLoop2.2 "ckb" "j1" "b1"

/-- Round 2: cancel. -/
def selectLoop4 := cancel_bid_selection selectLoop3.2 "ckb" "j1"

/-- Round 3: select `b1` again (selection_count 2 → 3 = max_selections). -/
def selectLoop5 := select_bid selectLoop4.2 "ckb" "j1" "b1"

/-- Round 3: cancel. -/
def selectLoop6 := cancel_bid_selection selectLoop5.2 "ckb" "j1"

/-- Round 4: a fourth selection, attempted with
`selection_count = max_selections = 3`. -/
def selectLoop7 := select_bid selectLoop6.2 "ckb" "j1" "b1"

/-- C1 (code_bug evaluation).  The selection-cap guard of
`JobService.select_bid` reads `selection_count > max_selections` instead of
`>=`: starting from a fresh job with `max_selections = 3`, three
select/cancel rounds drive `selection_count` to 3, and a fourth selection is
then accepted, leaving `selection_count = 4 > max_selections = 3` — the
claimed invariant `selection_count ≤ max_selections` is violated and no
`ValidationError` is raised. -/
theorem select_bid_exceeds_selection_cap :
    selectLoop1.1 = .ok () ∧ selectLoop2.1 = .ok () ∧ selectLoop3.1 = .ok () ∧
    selectLoop4.1 = .ok () ∧ selectLoop5.1 = .ok () ∧ selectLoop6.1 = .ok () ∧
    selectLoop7.1 = .ok () ∧
    selectLoop7.2.jobs.map (fun j => (j.selection_count, j.max_selections)) =
      [((4 : Int), (3 : Int))] :=
  ⟨rfl, rfl, rfl, rfl, rfl, rfl, rfl, rfl⟩

/-! ### C3 scenario: six contractors bid on one open job -/

/-- The bid submission body used by every contractor in the C3 scenario. -/
def demoBidCreate : BidCreate :=
  { job_id := "j1", title := "t", price_min := "$100", price_max := "$200.00"
    timeline_estimate := "1w", work_description := "w" }

/-- Start state of the bid-cap scenario: open job, no bids. -/
def createSeqDB : DB :=
  { users := demoUsers, jobs := [demoJob], bids := [], buyer_profiles := [] }

/-- Submission by contractor `c1`. -/
def createSeq1 := create_bid createSeqDB "ck1" demoBidCreate "nb1"

/-- Submission by contractor `c2`. -/
def createSeq2 := create_bid createSeq1.2 "ck2" demoBidCreate "nb2"

/-- Submission by contractor `c3`. -/
def createSeq3 := create_bid createSeq2.2 "ck3" demoBidCreate "nb3"

/-- Submission by contractor `c4`. -/
def createSeq4 := create_bid createSeq3.2 "ck4" demoBidCreate "nb4"

/-- The 5th submission, by contractor `c5`. -/
def createSeq5 := create_bid createSeq4.2 "ck5" demoBidCreate "nb5"

/-- The 6th submission attempt, by contractor `c6`. -/
def createSeq6 := create_bid createSeq5.2 "ck6" demoBidCreate "nb6"

/-- C3 (code_bug evaluation).  Four valid submissions succeed and the job
stays `open`.  The 5th valid submission inserts the bid and its
`pending`-bid count reaches exactly 5, but the closing update evaluates
`JobStatus.CLOSED.value` and `JobStatus` has no `CLOSED` member: the
`AttributeError` is converted to `ServerError("Failed to create your bid")`
and the job is never transitioned out of `open`.  The 6th attempt then fails
on the bid-cap guard with
`ValidationError("This job already has the maximum number of bids")`. -/
theorem create_bid_fifth_submission_server_error :
    createSeq1.1 = .ok () ∧ createSeq2.1 = .ok () ∧ createSeq3.1 = .ok () ∧
    createSeq4.1 = .ok () ∧ createSeq4.2.jobs.map Job.status = ["open"] ∧
    createSeq5.1 = .error (.serverError "Failed to create your bid") ∧
    createSeq5.2.bids.length = 5 ∧
    (createSeq5.2.bids.filter (fun b => b.status == "pending")).length = 5 ∧
    createSeq5.2.jobs.map Job.status = ["open"] ∧
    createSeq6.1 = .error (.validationError "This job already has the maximum number of bids") ∧
    createSeq6.2.bids.length = 5 :=
  ⟨rfl, rfl, rfl, rfl, rfl, rfl, rfl, rfl, rfl, rfl, rfl⟩

/-! ### C5 scenario: the same checkout-completed event delivered twice -/

/-- Metadata of a credit-purchase checkout session carrying the fields
`_handle_payment_success` requires. -/
def creditPurchaseMeta : List (String × String) :=
  [("product_name", "Credits Package (10 credits)"), ("item_type", "credit_purchase"),
   ("contractor_id", "c1"), ("amount_cad", "50"), ("credits_purchased", "10")]

/-- Payments state before any webhook delivery. -/
def paymentsDB0 : PaymentsDB :=
  { payment_transactions := [], credit_transactions := [] }

/-- First delivery of the `checkout.session.completed` event for session
`cs_1`. -/
def webhookOnce := handle_payment_success paymentsDB0 creditPurchaseMeta "cs_1" (some "pi_1") "p1"

/-- Second delivery of the identical event. -/
def webhookTwice := handle_payment_success webhookOnce.2 creditPurchaseMeta "cs_1" (some "pi_1") "p2"

/-- C5 (code_bug evaluation).  `_handle_payment_success` inserts the payment
transaction unconditionally — it never looks for an existing row with the
same `stripe_session_id` — so redelivering the same checkout-completed event
records a second Payment Transaction for session `cs_1` and, the item being a
credit purchase, adds the 10 credits a second time (balance 20 instead of
10). -/
theorem webhook_redelivery_double_processes :
    webhookOnce.1 = .ok "Payment cs_1 recorded successfully" ∧
    (webhookOnce.2.payment_transactions.filter
      (fun p => p.stripe_session_id == "cs_1")).length = 1 ∧
    get_contractor_credits webhookOnce.2.credit_transactions "c1" = 10 ∧
    webhookTwice.1 = .ok "Payment cs_1 recorded successfully" ∧
    (webhookTwice.2.payment_transactions.filter
      (fun p => p.stripe_session_id == "cs_1")).length = 2 ∧
    get_contractor_credits webhookTwice.2.credit_transactions "c1" = 20 :=
  ⟨rfl, rfl, rfl, rfl, rfl, rfl⟩

/-! ## Inversion lemmas: what a successful operation implies -/

/-- Successful `select_bid` run: the guards that must have held and the
exact writes that were applied. -/
theorem select_bid_ok_shape (db : DB) (ck jid bid : String) (db' : DB)
    (h : select_bid db ck jid bid = (.ok (), db')) :
    ∃ uid job_data bid_data,
      get_user_id db ck = .ok uid ∧
      job_data ∈ db.jobs ∧ job_data.id = jid ∧ job_data.buyer_id = uid ∧
      (job_data.status = "open" ∨ job_data.status = "full_bid") ∧
      job_data.selection_count ≤ job_data.max_selections ∧
      bid_data ∈ db.bids ∧ bid_data.id = bid ∧ bid_data.job_id = jid ∧
      bid_data.status ≠ "draft" ∧ bid_data.status ≠ "declined" ∧
      bid_data.is_selected = false ∧
      db' = { db with
        bids := (db.bids.map (applyUnselect jid)).map (applySelect bid)
        jobs := db.jobs.map (applyJobSelect jid (job_data.selection_count + 1)) } := by
  simp only [select_bid] at h
  split at h
  · exact absurd h (by simp)
  rename_i uid hu
  split at h
  · exact absurd h (by simp)
  rename_i job_data jt hjf
  split at h
  · exact absurd h (by simp)
  rename_i hstat
  split at h
  · exact absurd h (by simp)
  rename_i hcap
  split at h
  · exact absurd h (by simp)
  rename_i bid_data bt hbf
  split at h
  · exact absurd h (by simp)
  rename_i hsel
  simp only [Prod.mk.injEq, true_and] at h
  have hjm : job_data ∈ db.jobs.filter (fun j => j.id == jid && j.buyer_id == uid) := by
    rw [hjf]; exact List.mem_cons_self _ _
  obtain ⟨hjmem, hjp⟩ := List.mem_filter.1 hjm
  simp only [Bool.and_eq_true, beq_iff_eq] at hjp
  have hbm : bid_data ∈ db.bids.filter (fun b => b.id == bid && b.job_id == jid &&
      b.status != "draft" && b.status != "declined") := by
    rw [hbf]; exact List.mem_cons_self _ _
  obtain ⟨hbmem, hbp⟩ := List.mem_filter.1 hbm
  simp only [Bool.and_eq_true, beq_iff_eq, bne_iff_ne] at hbp
  simp only [Bool.not_eq_true', Bool.not_eq_false, Bool.or_eq_true, beq_iff_eq] at hstat
  exact ⟨uid, job_data, bid_data, hu, hjmem, hjp.1, hjp.2, hstat, not_lt.1 hcap,
    hbmem, hbp.1.1.1, hbp.1.1.2, hbp.1.2, hbp.2, by simpa using hsel, h.symm⟩

/-- Successful `confirm_selected_bid` run: guards and writes. -/
theorem confirm_selected_bid_ok_shape (db : DB) (ck bid : String) (db' : DB)
    (h : confirm_selected_bid db ck bid = (.ok (), db')) :
    ∃ uid bid_data,
      get_user_id db ck = .ok uid ∧
      bid_data ∈ db.bids ∧ bid_data.id = bid ∧ bid_data.contractor_id = uid ∧
      bid_data.status = "selected" ∧ bid_data.is_selected = true ∧
      db' = { db with
        bids := (db.bids.map (applyConfirm bid)).map
          (applyDeclineOthers bid_data.job_id bid)
        jobs := db.jobs.map (applyJobStatus bid_data.job_id "confirmed") } := by
  simp only [confirm_selected_bid] at h
  split at h
  · exact absurd h (by simp)
  rename_i uid hu
  split at h
  · exact absurd h (by simp)
  rename_i bid_data bt hbf
  split at h
  · exact absurd h (by simp)
  rename_i hguard
  simp only [Prod.mk.injEq, true_and] at h
  have hbm : bid_data ∈ db.bids.filter (fun b => b.id == bid && b.contractor_id == uid) := by
    rw [hbf]; exact List.mem_cons_self _ _
  obtain ⟨hbmem, hbp⟩ := List.mem_filter.1 hbm
  simp only [Bool.and_eq_true, beq_iff_eq] at hbp
  simp only [Bool.or_eq_true, bne_iff_ne, ne_eq, Bool.not_eq_true', not_or, not_not,
    Bool.not_eq_false] at hguard
  exact ⟨uid, bid_data, hu, hbmem, hbp.1, hbp.2, hguard.1, hguard.2, h.symm⟩

/-- Successful `cancel_bid_selection` run: guards and writes. -/
theorem cancel_bid_selection_ok_shape (db : DB) (ck jid : String) (db' : DB)
    (h : cancel_bid_selection db ck jid = (.ok (), db')) :
    ∃ uid job_data selected_bid,
      get_user_id db ck = .ok uid ∧
      job_data ∈ db.jobs ∧ job_data.id = jid ∧ job_data.buyer_id = uid ∧
      job_data.status = "waiting_confirmation" ∧
      selected_bid ∈ db.bids ∧ selected_bid.job_id = jid ∧
      selected_bid.is_selected = true ∧
      db' = { db with
        bids := db.bids.map (applyResetPending selected_bid.id)
        jobs := db.jobs.map (applyJobStatus jid
          (if ((db.bids.map (applyResetPending selected_bid.id)).filter (fun b =>
              b.job_id == jid && b.status != "draft" && b.status != "declined")).length ≥ 5
            then "full_bid" else "open")) } := by
  simp only [cancel_bid_selection] at h
  split at h
  · exact absurd h (by simp)
  rename_i uid hu
  split at h
  · exact absurd h (by simp)
  rename_i job_data jt hjf
  split at h
  · exact absurd h (by simp)
  rename_i hstat
  split at h
  · exact absurd h (by simp)
  rename_i selected_bid st hbf
  simp only [Prod.mk.injEq, true_and] at h
  have hjm : job_data ∈ db.jobs.filter (fun j => j.id == jid && j.buyer_id == uid) := by
    rw [hjf]; exact List.mem_cons_self _ _
  obtain ⟨hjmem, hjp⟩ := List.mem_filter.1 hjm
  simp only [Bool.and_eq_true, beq_iff_eq] at hjp
  have hbm : selected_bid ∈ db.bids.filter (fun b => b.job_id == jid && b.is_selected) := by
    rw [hbf]; exact List.mem_cons_self _ _
  obtain ⟨hbmem, hbp⟩ := List.mem_filter.1 hbm
  simp only [Bool.and_eq_true, beq_iff_eq] at hbp
  simp only [bne_iff_ne, ne_eq, Bool.not_eq_true', Bool.not_eq_false, not_not] at hstat
  exact ⟨uid, job_data, selected_bid, hu, hjmem, hjp.1, hjp.2, hstat,
    hbmem, hbp.1, hbp.2, h.symm⟩

/-! ## Field-preservation lemmas for the row transformers -/

/-- Unselecting never changes a row's id. -/
theorem applyUnselect_id (jid : String) (b : Bid) : (applyUnselect jid b).id = b.id := by
  unfold applyUnselect; split <;> rfl

/-- Unselecting never changes a row's job. -/
theorem applyUnselect_job_id (jid : String) (b : Bid) :
    (applyUnselect jid b).job_id = b.job_id := by
  unfold applyUnselect; split <;> rfl

/-- Selecting never changes a row's id. -/
theorem applySelect_id (t : String) (b : Bid) : (applySelect t b).id = b.id := by
  unfold applySelect; split <;> rfl

/-- Selecting never changes a row's job. -/
theorem applySelect_job_id (t : String) (b : Bid) :
    (applySelect t b).job_id = b.job_id := by
  unfold applySelect; split <;> rfl

/-- Rows other than the target are untouched by `applySelect`. -/
theorem applySelect_of_ne {t : String} {b : Bid} (h : b.id ≠ t) :
    applySelect t b = b := by
  unfold applySelect; rw [if_neg (by simpa using h)]

/-- A row still selected after `applyUnselect` was untouched: it was
selected and belongs to a different job. -/
theorem applyUnselect_selected {jid : String} {b : Bid}
    (h : (applyUnselect jid b).is_selected = true) :
    applyUnselect jid b = b ∧ b.is_selected = true ∧ b.job_id ≠ jid := by
  unfold applyUnselect at h ⊢
  split at h
  · simp at h
  · rename_i hc
    simp only [Bool.and_eq_true, beq_iff_eq, not_and] at hc
    refine ⟨by rw [if_neg (by simpa using hc)], h, fun hj => hc hj h⟩

/-- Confirming never changes a row's id. -/
theorem applyConfirm_id (t : String) (b : Bid) : (applyConfirm t b).id = b.id := by
  unfold applyConfirm; split <;> rfl

/-- Confirming never changes a row's job. -/
theorem applyConfirm_job_id (t : String) (b : Bid) :
    (applyConfirm t b).job_id = b.job_id := by
  unfold applyConfirm; split <;> rfl

/-- Confirming never changes a row's selection flag. -/
theorem applyConfirm_is_selected (t : String) (b : Bid) :
    (applyConfirm t b).is_selected = b.is_selected := by
  unfold applyConfirm; split <;> rfl

/-- Decline-others never changes a row's id. -/
theorem applyDeclineOthers_id (jid t : String) (b : Bid) :
    (applyDeclineOthers jid t b).id = b.id := by
  unfold applyDeclineOthers; split <;> rfl

/-- Decline-others never changes a row's job. -/
theorem applyDeclineOthers_job_id (jid t : String) (b : Bid) :
    (applyDeclineOthers jid t b).job_id = b.job_id := by
  unfold applyDeclineOthers; split <;> rfl

/-- A row still selected after `applyDeclineOthers` was untouched: it was
selected and is not a non-target row of the job. -/
theorem applyDeclineOthers_selected {jid t : String} {b : Bid}
    (h : (applyDeclineOthers jid t b).is_selected = true) :
    applyDeclineOthers jid t b = b ∧ b.is_selected = true ∧
      ¬(b.job_id = jid ∧ b.id ≠ t) := by
  unfold applyDeclineOthers at h ⊢
  split at h
  · simp at h
  · rename_i hc
    simp only [Bool.and_eq_true, beq_iff_eq, bne_iff_ne, not_and] at hc
    refine ⟨by rw [if_neg (by simpa using hc)], h, fun hj => hc hj.1 hj.2⟩

/-- Resetting to pending never changes a row's id. -/
theorem applyResetPending_id (t : String) (b : Bid) :
    (applyResetPending t b).id = b.id := by
  unfold applyResetPending; split <;> rfl

/-- Resetting to pending never changes a row's job. -/
theorem applyResetPending_job_id (t : String) (b : Bid) :
    (applyResetPending t b).job_id = b.job_id := by
  unfold applyResetPending; split <;> rfl

/-- The job-status update never changes a row's id. -/
theorem applyJobStatus_id (jid s : String) (j : Job) :
    (applyJobStatus jid s j).id = j.id := by
  unfold applyJobStatus; split <;> rfl

/-- The job-status update never changes `selection_count`. -/
theorem applyJobStatus_selection_count (jid s : String) (j : Job) :
    (applyJobStatus jid s j).selection_count = j.selection_count := by
  unfold applyJobStatus; split <;> rfl

/-- Two rows of a primary-key-unique table with the same id are the same
row. -/
theorem eq_of_unique_ids {l : List Bid} (h : UniqueBidIds l) {a b : Bid}
    (ha : a ∈ l) (hb : b ∈ l) (hid : a.id = b.id) : a = b :=
  List.inj_on_of_nodup_map h ha hb hid

/-! ### C2: at most one selected bid per job -/

/-- C2.  In any state with primary-key-unique bid ids where each job has at
most one selected bid, both a successful `select_bid` (which unselects the
job's selected bids before selecting the target) and a successful
`confirm_selected_bid` (which keeps only the confirmed bid selected and
unselects every other bid of the job) preserve the at-most-one-selected-bid
invariant. -/
theorem select_confirm_preserve_single_selection (db : DB)
    (hids : UniqueBidIds db.bids) (hinv : AtMostOneSelectedPerJob db.bids) :
    (∀ (ck jid bid : String) (db' : DB),
        select_bid db ck jid bid = (.ok (), db') →
        AtMostOneSelectedPerJob db'.bids) ∧
    (∀ (ck bid : String) (db' : DB),
        confirm_selected_bid db ck bid = (.ok (), db') →
        AtMostOneSelectedPerJob db'.bids) := by
  constructor
  · intro ck jid bid db' h
    obtain ⟨uid, jd, bd, -, -, -, -, -, -, hbdmem, hbdid, hbdjob, -, -, -, rfl⟩ :=
      select_bid_ok_shape db ck jid bid db' h
    show AtMostOneSelectedPerJob
      ((db.bids.map (applyUnselect jid)).map (applySelect bid))
    intro b1' hb1 b2' hb2 hs1 hs2 hjob
    rw [List.map_map] at hb1 hb2
    obtain ⟨b1, hm1, rfl⟩ := List.mem_map.1 hb1
    obtain ⟨b2, hm2, rfl⟩ := List.mem_map.1 hb2
    simp only [Function.comp_apply] at hs1 hs2 hjob ⊢
    by_cases h1 : b1.id = bid <;> by_cases h2 : b2.id = bid
    · rw [applySelect_id, applyUnselect_id, applySelect_id, applyUnselect_id]
      exact h1.trans h2.symm
    · exfalso
      have e2 : applySelect bid (applyUnselect jid b2) = applyUnselect jid b2 :=
        applySelect_of_ne (by rw [applyUnselect_id]; exact h2)
      rw [e2] at hs2 hjob
      obtain ⟨he2, -, hj2⟩ := applyUnselect_selected hs2
      rw [he2] at hjob
      rw [applySelect_job_id, applyUnselect_job_id] at hjob
      have hb1bd : b1 = bd := eq_of_unique_ids hids hm1 hbdmem (h1.trans hbdid.symm)
      apply hj2
      rw [← hjob, hb1bd, hbdjob]
    · exfalso
      have e1 : applySelect bid (applyUnselect jid b1) = applyUnselect jid b1 :=
        applySelect_of_ne (by rw [applyUnselect_id]; exact h1)
      rw [e1] at hs1 hjob
      obtain ⟨he1, -, hj1⟩ := applyUnselect_selected hs1
      rw [he1] at hjob
      rw [applySelect_job_id, applyUnselect_job_id] at hjob
      have hb2bd : b2 = bd := eq_of_unique_ids hids hm2 hbdmem (h2.trans hbdid.symm)
      apply hj1
      rw [hjob, hb2bd, hbdjob]
    · have e1 : applySelect bid (applyUnselect jid b1) = applyUnselect jid b1 :=
        applySelect_of_ne (by rw [applyUnselect_id]; exact h1)
      have e2 : applySelect bid (applyUnselect jid b2) = applyUnselect jid b2 :=
        applySelect_of_ne (by rw [applyUnselect_id]; exact h2)
      rw [e1] at hs1 hjob
      rw [e2] at hs2 hjob
      obtain ⟨he1, hsel1, -⟩ := applyUnselect_selected hs1
      obtain ⟨he2, hsel2, -⟩ := applyUnselect_selected hs2
      rw [he1, he2] at hjob
      rw [e1, e2, he1, he2]
      exact hinv b1 hm1 b2 hm2 hsel1 hsel2 hjob
  · intro ck bid db' h
    obtain ⟨uid, bd, -, -, -, -, -, -, rfl⟩ :=
      confirm_selected_bid_ok_shape db ck bid db' h
    show AtMostOneSelectedPerJob
      ((db.bids.map (applyConfirm bid)).map (applyDeclineOthers bd.job_id bid))
    intro b1' hb1 b2' hb2 hs1 hs2 hjob
    rw [List.map_map] at hb1 hb2
    obtain ⟨b1, hm1, rfl⟩ := List.mem_map.1 hb1
    obtain ⟨b2, hm2, rfl⟩ := List.mem_map.1 hb2
    simp only [Function.comp_apply] at hs1 hs2 hjob ⊢
    obtain ⟨he1, hcs1, hnc1⟩ := applyDeclineOthers_selected hs1
    obtain ⟨he2, hcs2, hnc2⟩ := applyDeclineOthers_selected hs2
    rw [applyConfirm_is_selected] at hcs1 hcs2
    rw [he1, he2] at hjob ⊢
    rw [applyConfirm_job_id, applyConfirm_job_id] at hjob
    rw [applyConfirm_id, applyConfirm_id]
    rw [applyConfirm_job_id, applyConfirm_id] at hnc1
    rw [applyConfirm_job_id, applyConfirm_id] at hnc2
    by_cases hj1 : b1.job_id = bd.job_id
    · have hid1 : b1.id = bid := by
        by_contra hne
        exact hnc1 ⟨hj1, hne⟩
      have hid2 : b2.id = bid := by
        by_contra hne
        exact hnc2 ⟨hjob.symm.trans hj1, hne⟩
      exact hid1.trans hid2.symm
    · exact hinv b1 hm1 b2 hm2 hcs1 hcs2 hjob

/-- Witness for `select_confirm_preserve_single_selection`: after selecting
`b1` in the selection-loop start state, at most one bid of each job is
selected. -/
theorem select_confirm_preserve_single_selection_witness :
    AtMostOneSelectedPerJob selectLoop1.2.bids :=
  (select_confirm_preserve_single_selection selectLoopDB
    (by decide : (selectLoopDB.bids.map Bid.id).Nodup)
    (by
      intro b1 h1 b2 h2 _ _ _
      have e1 : b1 = demoBid1 := by simpa [selectLoopDB] using h1
      have e2 : b2 = demoBid1 := by simpa [selectLoopDB] using h2
      rw [e1, e2])).1
    "ckb" "j1" "b1" selectLoop1.2 rfl

/-! ### C4: credit consumption -/

/-- C4 (counterexample).  With an empty ledger (balance 0), consuming a
credit fails — but with a `DatabaseError` (the function's own
`except Exception` clause re-wraps the internal
`ValidationError("Insufficient credits")`), not with the
`InsufficientCreditsError` the claim names, which the codebase never
defines or raises. -/
theorem use_credit_for_bid_error_kind :
    use_credit_for_bid [] "c1" "j1" "b1" =
      (.error (.databaseError "Failed to process credit usage: 400: Insufficient credits"),
        []) ∧
    (match (use_credit_for_bid [] "c1" "j1" "b1").1 with
     | .error e => e.isInsufficientCredits
     | .ok _ => true) = false :=
  ⟨rfl, rfl⟩

/-- C4 (amended).  For every ledger and contractor: when the current balance
is ≤ 0, `use_credit_for_bid` fails with
`DatabaseError("Failed to process credit usage: 400: Insufficient credits")`
(not `InsufficientCreditsError`, which the codebase does not define) and
appends no transaction; otherwise it appends exactly one `usage` transaction
with `credits_change = -1` and `credits_balance_after` = previous balance
− 1. -/
theorem use_credit_for_bid_balance_spec (ledger : List CreditTransaction)
    (contractor_id job_id bid_id : String) :
    (get_contractor_credits ledger contractor_id ≤ 0 →
      use_credit_for_bid ledger contractor_id job_id bid_id =
        (.error (.databaseError "Failed to process credit usage: 400: Insufficient credits"),
          ledger)) ∧
    (0 < get_contractor_credits ledger contractor_id →
      use_credit_for_bid ledger contractor_id job_id bid_id =
        (.ok (),
          { contractor_id := contractor_id
            transaction_type := "usage"
            credits_change := -1
            credits_balance_after := get_contractor_credits ledger contractor_id - 1
            bid_id := some bid_id
            description := "Bid submission for job id: " ++ job_id } :: ledger)) := by
  constructor
  · intro h
    simp only [use_credit_for_bid, if_pos h]
    rfl
  · intro h
    simp only [use_credit_for_bid, if_neg (not_le.mpr h)]

/-- A ledger holding one purchase of 10 credits for contractor `c1`. -/
def demoLedger : List CreditTransaction :=
  [{ contractor_id := "c1", transaction_type := "purchase", credits_change := 10
     credits_balance_after := 10, description := "Credit purchase - 10 credits added" }]

/-- Witness for `use_credit_for_bid_balance_spec` at a balance of 10. -/
theorem use_credit_for_bid_balance_spec_witness :
    use_credit_for_bid demoLedger "c1" "j1" "b1" =
      (.ok (),
        { contractor_id := "c1", transaction_type := "usage", credits_change := -1
          credits_balance_after := 9, bid_id := some "b1"
          description := "Bid submission for job id: j1" } :: demoLedger) :=
  (use_credit_for_bid_balance_spec demoLedger "c1" "j1" "b1").2 (by decide)

/-! ### C6: re-selecting a different bid while one is selected -/

/-- Start state of the re-selection scenario: open job `j1`, two pending
bids. -/
def reselectDB : DB :=
  { users := demoUsers, jobs := [demoJob], bids := [demoBid1, demoBid2]
    buyer_profiles := [] }

/-- The buyer selects `b1`: job moves to `waiting_confirmation`. -/
def reselectStep1 := select_bid reselectDB "ckb" "j1" "b1"

/-- The buyer then tries to select `b2` directly. -/
def reselectDirect := select_bid reselectStep1.2 "ckb" "j1" "b2"

/-- The buyer instead cancels the selection of `b1` first. -/
def reselectCancel := cancel_bid_selection reselectStep1.2 "ckb" "j1"

/-- After cancelling, the buyer selects `b2`. -/
def reselectStep2 := select_bid reselectCancel.2 "ckb" "j1" "b2"

/-- C6 (counterexample).  After selecting `b1` the job is in
`waiting_confirmation`; selecting `b2` directly is rejected with
`ValidationError("Cannot select bid for job in current status")` — the
status guard of `select_bid` admits only `open` and `full_bid` — and the
state is unchanged, contradicting the claim that the selection succeeds. -/
theorem select_bid_rejected_while_waiting_confirmation :
    reselectStep1.1 = .ok () ∧
    reselectStep1.2.jobs.map (fun j => (j.status, j.selection_count)) =
      [("waiting_confirmation", (1 : Int))] ∧
    reselectStep1.2.bids.map (fun b => (b.id, b.is_selected)) =
      [("b1", true), ("b2", false)] ∧
    reselectDirect.1 = .error (.validationError "Cannot select bid for job in current status") ∧
    reselectDirect.2 = reselectStep1.2 :=
  ⟨rfl, rfl, rfl, rfl, rfl⟩

/-- C6 (amended).  Selecting another bid while the job is in
`waiting_confirmation` always fails with
`ValidationError("Cannot select bid for job in current status")`; the
re-selection of Scenario C is reached by first cancelling the current
selection: after `cancel_bid_selection` followed by `select_bid` on `b2`,
`b1` is back to `pending` with `is_selected = false`, `b2` is `selected`
with `is_selected = true`, and `selection_count` has incremented to 2. -/
theorem select_bid_waiting_confirmation_behavior :
    (∀ (db : DB) (ck jid bid uid : String) (job : Job) (rest : List Job),
        get_user_id db ck = .ok uid →
        db.jobs.filter (fun j => j.id == jid && j.buyer_id == uid) = job :: rest →
        job.status = "waiting_confirmation" →
        select_bid db ck jid bid =
          (.error (.validationError "Cannot select bid for job in current status"), db)) ∧
    (reselectCancel.1 = .ok () ∧ reselectStep2.1 = .ok () ∧
      reselectStep2.2.bids.map (fun b => (b.id, b.status, b.is_selected)) =
        [("b1", "pending", false), ("b2", "selected", true)] ∧
      reselectStep2.2.jobs.map (fun j => (j.status, j.selection_count)) =
        [("waiting_confirmation", (2 : Int))]) := by
  constructor
  · intro db ck jid bid uid job rest hu hf hs
    simp [select_bid, hu, hf, hs]
  · exact ⟨rfl, rfl, rfl, rfl⟩

/-- Witness for the universal part of
`select_bid_waiting_confirmation_behavior`, at the concrete state reached
after selecting `b1`. -/
theorem select_bid_waiting_confirmation_behavior_witness :
    select_bid reselectStep1.2 "ckb" "j1" "b2" =
      (.error (.validationError "Cannot select bid for job in current status"),
        reselectStep1.2) :=
  select_bid_waiting_confirmation_behavior.1 reselectStep1.2 "ckb" "j1" "b2" "u1"
    { id := "j1", buyer_id := "u1", status := "waiting_confirmation"
      selection_count := 1, max_selections := 3 } [] rfl rfl rfl

/-! ### C8: formatted-currency price validation -/

/-- The cross-multiplied Bool comparison agrees with the rational order. -/
theorem PyDecimal.blt_iff (a b : PyDecimal) :
    a.blt b = true ↔ a.toRat < b.toRat := by
  rw [PyDecimal.blt, decide_eq_true_iff, PyDecimal.toRat, PyDecimal.toRat,
    div_lt_div_iff₀ (by positivity) (by positivity)]
  constructor <;> intro h <;> exact_mod_cast h

/-- The decimal zero denotes the rational zero. -/
theorem PyDecimal.zero_toRat : PyDecimal.zero.toRat = 0 := by
  simp [PyDecimal.toRat, PyDecimal.zero]

/-- C8.  Price strings are compared numerically after stripping currency
symbols and commas: Scenario E (`"$150.00"` vs `"$100"`) fails with
`ValidationError("Minimum price cannot be greater than maximum price")`;
for any two price strings that clean to non-negative numeric values `a`
and `b`, validation succeeds exactly when `a ≤ b` as rationals; and a price
string whose stripped form is non-numeric fails with
`ValidationError("Invalid price format: ...")`. -/
theorem validate_bid_data_spec :
    (validate_bid_data "$150.00" "$100" =
      .error (.validationError "Minimum price cannot be greater than maximum price")) ∧
    (∀ (pm px : String) (a b : PyDecimal),
        clean_price_string pm = .ok a → clean_price_string px = .ok b →
        0 ≤ a.toRat → 0 ≤ b.toRat →
        (validate_bid_data pm px = .ok () ↔ a.toRat ≤ b.toRat)) ∧
    (∀ pm px : String, pm ≠ "" →
        pyFloat (pyStrip (pyReplaceEmpty (pyReplaceEmpty pm '$') ',')) = none →
        validate_bid_data pm px =
          .error (.validationError ("Invalid price format: " ++ pm))) := by
  refine ⟨rfl, ?_, ?_⟩
  · intro pm px a b ha hb h0a h0b
    have hza : a.blt PyDecimal.zero = false := by
      rw [← Bool.not_eq_true, PyDecimal.blt_iff, PyDecimal.zero_toRat]
      exact not_lt.mpr h0a
    have hzb : b.blt PyDecimal.zero = false := by
      rw [← Bool.not_eq_true, PyDecimal.blt_iff, PyDecimal.zero_toRat]
      exact not_lt.mpr h0b
    simp only [validate_bid_data, ha, hb, hza, hzb, Bool.or_self, Bool.false_or,
      if_false, PyDecimal.bgt]
    by_cases hab : b.blt a = true
    · rw [if_pos hab]
      rw [PyDecimal.blt_iff] at hab
      simp only [not_le.mpr hab, iff_false]
      intro hcontra
      exact absurd hcontra (by simp)
    · rw [if_neg hab]
      rw [Bool.not_eq_true, ← Bool.not_eq_true, PyDecimal.blt_iff] at hab
      simp only [not_lt] at hab
      simpa using hab
  · intro pm px hpm hparse
    simp only [validate_bid_data, clean_price_string,
      beq_eq_false_iff_ne.mpr hpm, Bool.false_eq_true, if_false, hparse]

/-- Witness for `validate_bid_data_spec`: `"$1,000.00"` against `"$2,000"`
passes, `"abc"` fails as non-numeric. -/
theorem validate_bid_data_spec_witness :
    validate_bid_data "$1,000.00" "$2,000" = .ok () ∧
    validate_bid_data "abc" "5" = .error (.validationError "Invalid price format: abc") := by
  constructor
  · exact (validate_bid_data_spec.2.1 "$1,000.00" "$2,000" ⟨100000, 2⟩ ⟨2000, 0⟩
      rfl rfl (by norm_num [PyDecimal.toRat]) (by norm_num [PyDecimal.toRat])).mpr
      (by norm_num [PyDecimal.toRat])
  · exact validate_bid_data_spec.2.2 "abc" "5" (by decide) rfl

/-! ### C9: buyer contact information disclosure -/

/-- C9.  For every state and every bid detail the contractor endpoint
returns: when the bid's status is not `confirmed`, both buyer contact
fields are `None` — the buyer profile is consulted only under the
`status == "confirmed"` guard. -/
theorem get_bid_detail_hides_buyer_contact (db : DB) (ck bid_id : String)
    (detail : BidDetailResult)
    (h : get_bid_detail db ck bid_id = .ok detail)
    (hnc : detail.status ≠ "confirmed") :
    detail.buyer_contact_email = none ∧ detail.buyer_contact_phone = none := by
  simp only [get_bid_detail] at h
  split at h
  · exact absurd h (by simp)
  · split at h
    · exact absurd h (by simp)
    · injection h with h
      subst h
      rename_i bd jd tl hrows
      simp only [BidDetailResult.status] at hnc
      have hcond : ¬ ((bd.status == "confirmed") = true) := by simpa using hnc
      exact ⟨by rw [if_neg hcond], by rw [if_neg hcond]⟩

/-- State for the C9 witness: a pending bid whose job's buyer does have a
profile on file. -/
def detailDB : DB :=
  { users := demoUsers, jobs := [demoJob], bids := [demoBid1]
    buyer_profiles := [⟨"u1", "buyer@example.com", "555-0100"⟩] }

/-- The detail record `get_bid_detail` returns for `b1` in `detailDB`. -/
def demoDetail : BidDetailResult :=
  { id := "b1", job_id := "j1", contractor_id := "c1"
    status := "pending", is_selected := false }

/-- Witness for `get_bid_detail_hides_buyer_contact`: the pending bid's
detail carries no buyer contact despite the profile existing. -/
theorem get_bid_detail_hides_buyer_contact_witness :
    demoDetail.buyer_contact_email = none ∧ demoDetail.buyer_contact_phone = none :=
  get_bid_detail_hides_buyer_contact detailDB "ck1" "b1" demoDetail rfl (by decide)

/-! ### C7: confirming a selected bid -/

/-- C7.  A successful confirm implies the target bid had status `selected`
(the only-if of the guard); afterwards, the target row is `confirmed` and
still selected, the bid's job is `confirmed`, and every other bid of that
job is `declined` and unselected. -/
theorem confirm_selected_bid_spec (db : DB) (ck bid_id : String) (db' : DB)
    (hids : UniqueBidIds db.bids)
    (h : confirm_selected_bid db ck bid_id = (.ok (), db')) :
    ∃ bd ∈ db.bids, bd.id = bid_id ∧ bd.status = "selected" ∧ bd.is_selected = true ∧
      (∀ b' ∈ db'.bids, b'.id = bid_id → b'.status = "confirmed" ∧ b'.is_selected = true) ∧
      (∀ b' ∈ db'.bids, b'.job_id = bd.job_id → b'.id ≠ bid_id →
        b'.status = "declined" ∧ b'.is_selected = false) ∧
      (∀ j ∈ db'.jobs, j.id = bd.job_id → j.status = "confirmed") := by
  obtain ⟨uid, bd, hu, hmem, hid, hctr, hstat, hsel, rfl⟩ :=
    confirm_selected_bid_ok_shape db ck bid_id db' h
  refine ⟨bd, hmem, hid, hstat, hsel, ?_, ?_, ?_⟩
  · intro b' hb' hbid
    rw [List.map_map] at hb'
    obtain ⟨b, hbm, rfl⟩ := List.mem_map.1 hb'
    simp only [Function.comp_apply] at hbid ⊢
    rw [applyDeclineOthers_id, applyConfirm_id] at hbid
    have hbbd : b = bd := eq_of_unique_ids hids hbm hmem (hbid.trans hid.symm)
    have e1 : applyConfirm bid_id b = { b with status := "confirmed" } := by
      unfold applyConfirm
      rw [if_pos (by simpa using hbid)]
    have e2 : applyDeclineOthers bd.job_id bid_id ({ b with status := "confirmed" }) =
        { b with status := "confirmed" } := by
      unfold applyDeclineOthers
      rw [if_neg (by simp [hbid])]
    rw [e1, e2]
    exact ⟨rfl, by rw [show ({ b with status := "confirmed" } : Bid).is_selected =
      b.is_selected from rfl, hbbd]; exact hsel⟩
  · intro b' hb' hjob hne
    rw [List.map_map] at hb'
    obtain ⟨b, hbm, rfl⟩ := List.mem_map.1 hb'
    simp only [Function.comp_apply] at hjob hne ⊢
    rw [applyDeclineOthers_id, applyConfirm_id] at hne
    rw [applyDeclineOthers_job_id, applyConfirm_job_id] at hjob
    have e2 : applyDeclineOthers bd.job_id bid_id (applyConfirm bid_id b) =
        { (applyConfirm bid_id b) with status := "declined", is_selected := false } := by
      unfold applyDeclineOthers
      rw [if_pos (by simp [applyConfirm_job_id, applyConfirm_id, hjob, hne])]
    rw [e2]
    exact ⟨rfl, rfl⟩
  · intro j hj hjid
    obtain ⟨j0, hj0, rfl⟩ := List.mem_map.1 hj
    rw [applyJobStatus_id] at hjid
    unfold applyJobStatus
    rw [if_pos (by simpa using hjid)]

/-- A job of `u1` awaiting confirmation after one selection. -/
def waitJob : Job :=
  { id := "j1", buyer_id := "u1", status := "waiting_confirmation"
    selection_count := 1, max_selections := 3 }

/-- The selected bid of contractor `c1` on `j1`. -/
def selectedBid1 : Bid :=
  { id := "b1", job_id := "j1", contractor_id := "c1"
    status := "selected", is_selected := true }

/-- Concrete waiting-confirmation state: `b1` selected, `b2` pending. -/
def cancelDB : DB :=
  { users := demoUsers, jobs := [waitJob], bids := [selectedBid1, demoBid2]
    buyer_profiles := [] }

/-- Witness for `confirm_selected_bid_spec`: contractor `c1` confirms `b1`
in `cancelDB`. -/
theorem confirm_selected_bid_spec_witness :
    ∃ bd ∈ cancelDB.bids, bd.id = "b1" ∧ bd.status = "selected" ∧ bd.is_selected = true ∧
      (∀ b' ∈ (confirm_selected_bid cancelDB "ck1" "b1").2.bids, b'.id = "b1" →
        b'.status = "confirmed" ∧ b'.is_selected = true) ∧
      (∀ b' ∈ (confirm_selected_bid cancelDB "ck1" "b1").2.bids, b'.job_id = bd.job_id →
        b'.id ≠ "b1" → b'.status = "declined" ∧ b'.is_selected = false) ∧
      (∀ j ∈ (confirm_selected_bid cancelDB "ck1" "b1").2.jobs, j.id = bd.job_id →
        j.status = "confirmed") :=
  confirm_selected_bid_spec cancelDB "ck1" "b1"
    (confirm_selected_bid cancelDB "ck1" "b1").2
    (by decide : (cancelDB.bids.map Bid.id).Nodup) rfl

/-! ### C10: cancelling the current bid selection -/

/-- C10.  A successful cancel implies the job was in `waiting_confirmation`
with a selected bid; afterwards that bid is `pending` and unselected, the
other bid rows are untouched, and every `jobs` row of the job keeps its
`selection_count` and moves to `full_bid` when the job holds at least 5
non-draft, non-declined bids and to `open` otherwise. -/
theorem cancel_bid_selection_spec (db : DB) (ck jid : String) (db' : DB)
    (hbids : UniqueBidIds db.bids) (hjids : UniqueJobIds db.jobs)
    (hsel : ∀ b ∈ db.bids, b.job_id = jid → b.is_selected = true → b.status = "selected")
    (h : cancel_bid_selection db ck jid = (.ok (), db')) :
    ∃ job ∈ db.jobs, ∃ sb ∈ db.bids,
      job.id = jid ∧ job.status = "waiting_confirmation" ∧
      sb.job_id = jid ∧ sb.is_selected = true ∧
      (∀ b' ∈ db'.bids, b'.id = sb.id → b'.status = "pending" ∧ b'.is_selected = false) ∧
      (∀ b' ∈ db'.bids, b'.id ≠ sb.id → b' ∈ db.bids) ∧
      (∀ j' ∈ db'.jobs, j'.id = jid →
        j'.selection_count = job.selection_count ∧
        j'.status = (if (db.bids.filter (fun b => b.job_id == jid &&
            b.status != "draft" && b.status != "declined")).length ≥ 5
          then "full_bid" else "open")) := by
  obtain ⟨uid, job_data, selected_bid, hu, hjmem, hjid, hbuyer, hjstat, hbmem, hbjob,
    hbsel, rfl⟩ := cancel_bid_selection_ok_shape db ck jid db' h
  have hcnt : ((db.bids.map (applyResetPending selected_bid.id)).filter (fun b =>
      b.job_id == jid && b.status != "draft" && b.status != "declined")).length =
      (db.bids.filter (fun b => b.job_id == jid && b.status != "draft" &&
        b.status != "declined")).length := by
    rw [List.filter_map, List.length_map]
    congr 1
    apply List.filter_congr
    intro b hb
    simp only [Function.comp_apply]
    by_cases hbid : b.id = selected_bid.id
    · have hbsb : b = selected_bid := eq_of_unique_ids hbids hb hbmem hbid
      have e : applyResetPending selected_bid.id b =
          { b with is_selected := false, status := "pending" } := by
        unfold applyResetPending
        rw [if_pos (by simpa using hbid)]
      rw [e, hbsb]
      have hstat : selected_bid.status = "selected" := hsel selected_bid hbmem hbjob hbsel
      simp [hbjob, hstat]
    · have e : applyResetPending selected_bid.id b = b := by
        unfold applyResetPending
        rw [if_neg (by simpa using hbid)]
      rw [e]
  refine ⟨job_data, hjmem, selected_bid, hbmem, hjid, hjstat, hbjob, hbsel, ?_, ?_, ?_⟩
  · intro b' hb' hbid
    obtain ⟨b, hbm, rfl⟩ := List.mem_map.1 hb'
    rw [applyResetPending_id] at hbid
    have e : applyResetPending selected_bid.id b =
        { b with is_selected := false, status := "pending" } := by
      unfold applyResetPending
      rw [if_pos (by simpa using hbid)]
    rw [e]
    exact ⟨rfl, rfl⟩
  · intro b' hb' hbne
    obtain ⟨b, hbm, rfl⟩ := List.mem_map.1 hb'
    rw [applyResetPending_id] at hbne
    have e : applyResetPending selected_bid.id b = b := by
      unfold applyResetPending
      rw [if_neg (by simpa using hbne)]
    rw [e]
    exact hbm
  · intro j' hj' hjid'
    obtain ⟨j0, hj0, rfl⟩ := List.mem_map.1 hj'
    rw [applyJobStatus_id] at hjid'
    have hj0jd : j0 = job_data :=
      List.inj_on_of_nodup_map hjids hj0 hjmem (by rw [hjid', hjid])
    constructor
    · rw [applyJobStatus_selection_count, hj0jd]
    · unfold applyJobStatus
      rw [if_pos (by simpa using hjid')]
      show (if _ ≥ 5 then "full_bid" else "open") = _
      rw [hcnt]

/-- Witness for `cancel_bid_selection_spec`: the buyer cancels the selection
of `b1` in `cancelDB`. -/
theorem cancel_bid_selection_spec_witness :
    ∃ job ∈ cancelDB.jobs, ∃ sb ∈ cancelDB.bids,
      job.id = "j1" ∧ job.status = "waiting_confirmation" ∧
      sb.job_id = "j1" ∧ sb.is_selected = true ∧
      (∀ b' ∈ (cancel_bid_selection cancelDB "ckb" "j1").2.bids, b'.id = sb.id →
        b'.status = "pending" ∧ b'.is_selected = false) ∧
      (∀ b' ∈ (cancel_bid_selection cancelDB "ckb" "j1").2.bids, b'.id ≠ sb.id →
        b' ∈ cancelDB.bids) ∧
      (∀ j' ∈ (cancel_bid_selection cancelDB "ckb" "j1").2.jobs, j'.id = "j1" →
        j'.selection_count = job.selection_count ∧
        j'.status = (if (cancelDB.bids.filter (fun b => b.job_id == "j1" &&
            b.status != "draft" && b.status != "declined")).length ≥ 5
          then "full_bid" else "open")) :=
  cancel_bid_selection_spec cancelDB "ckb" "j1"
    (cancel_bid_selection cancelDB "ckb" "j1").2
    (by decide : (cancelDB.bids.map Bid.id).Nodup)
    (by decide : (cancelDB.jobs.map Job.id).Nodup)
    (by
      intro b hb h1 h2
      rcases List.mem_cons.mp hb with rfl | hb2
      · rfl
      · rcases List.mem_cons.mp hb2 with rfl | h3
        · exact absurd h2 (by decide)
        · cases h3)
    rfl

end Bidquotes
